import Mathlib

/-!
# Verification of the Bleemeo agent connector (`bleemeo_agent/bleemeo.py`)

A shallow embedding of the connector module of the Bleemeo monitoring agent,
together with proofs about its behaviour.  Python dictionaries are modelled as
association lists with unique keys (insertion replaces in place, lookup returns
the binding), machine clocks as integers, and the pseudo-random generator as an
explicit oracle parameter.  Fallible code is modelled with `Option`/`Except`.
-/

set_option maxRecDepth 10000

namespace Bleemeo

/-! ## Constants (module-level constants of `bleemeo.py`) -/

def MQTT_QUEUE_MAX_SIZE : Int := 2000

def API_METRIC_ITEM_LENGTH : Nat := 100

def API_CONTAINER_NAME_LENGTH : Nat := 100

def API_SERVICE_INSTANCE_LENGTH : Nat := 50

/-! ## Dictionaries

Python `dict` values are modelled as association lists: assignment replaces an
existing binding in place (preserving insertion order) or appends a fresh one,
and lookup returns the first (hence unique) binding for a key. -/

def dictGet {κ α : Type} [DecidableEq κ] : List (κ × α) → κ → Option α
  | [], _ => none
  | (k', v) :: rest, k => if k' = k then some v else dictGet rest k

def dictGetD {κ α : Type} [DecidableEq κ] (l : List (κ × α)) (k : κ) (d : α) :
    α :=
  (dictGet l k).getD d

def dictInsert {κ α : Type} [DecidableEq κ] :
    List (κ × α) → κ → α → List (κ × α)
  | [], k, v => [(k, v)]
  | (k', v') :: rest, k, v =>
    if k' = k then (k, v) :: rest else (k', v') :: dictInsert rest k v

def dictMem {κ α : Type} [DecidableEq κ] (l : List (κ × α)) (k : κ) : Bool :=
  (dictGet l k).isSome

/-- `l[-n:]` in Python: the suffix of the last `n` elements. -/
def lastN {α : Type} (n : Nat) (l : List α) : List α :=
  l.drop (l.length - n)

/-! ## Data model (named tuples of `bleemeo.py`) -/

structure MetricThreshold where
  low_warning : Option Int
  low_critical : Option Int
  high_warning : Option Int
  high_critical : Option Int
  deriving DecidableEq, Repr

structure Metric where
  uuid : String
  label : String
  labels : List (String × String)
  service_uuid : Option String
  container_uuid : Option String
  status_of : Option String
  thresholds : MetricThreshold
  unit : Option Int
  unit_text : Option String
  deactivated_at : Option Int
  deriving DecidableEq, Repr

structure Service where
  uuid : String
  label : String
  instance_ : String
  listen_addresses : List String
  exe_path : String
  stack : String
  active : Bool
  deriving DecidableEq, Repr

structure Container where
  uuid : String
  name : String
  docker_id : String
  inspect_hash : String
  deriving DecidableEq, Repr

structure AgentConfig where
  uuid : String
  name : String
  docker_integration : Bool
  topinfo_period : Nat
  metrics_whitelist : List String
  metric_resolution : Nat
  deriving DecidableEq, Repr

structure AgentFact where
  uuid : String
  key : String
  value : String
  deriving DecidableEq, Repr

structure MetricRegistrationReq where
  label : String
  labels : List (String × String)
  service_label : String
  instance_ : String
  container_name : String
  status_of_label : Option String
  last_status : Option Nat
  last_problem_origins : String
  last_seen : Int
  deriving DecidableEq, Repr

/-- `MetricPoint` is supplied by the collectors (outside this module); its
field set is the one the connector reads.  Absent optional strings are the
empty string, as in the source.  The `value` payload is carried opaquely. -/
structure MetricPoint where
  label : String
  labels : List (String × String)
  time : Int
  value : Int
  service_label : String
  service_instance : String
  container_name : String
  status_of : Option String
  status_code : Option Nat
  problem_origin : String
  deriving DecidableEq, Repr

/-! ## C1: the whitelist gate (`BleemeoConnector.sent_metric`, `emit_metric`) -/

/-- `BleemeoConnector.sent_metric`: should this metric be sent to the
platform?  Direct translation of the source. -/
def sent_metric (current_config : Option AgentConfig) (metric_name : String)
    (is_service_status : Bool) : Bool :=
  match current_config with
  | none => true
  | some cfg =>
    -- whitelist = bleemeo_cache.current_config.metrics_whitelist
    if cfg.metrics_whitelist.isEmpty then
      -- Always sent metrics if whitelist is empty
      true
    else if is_service_status then
      true
    else if cfg.metrics_whitelist.contains metric_name then
      true
    else
      false

/-- The `is_service_status` flag computed by `BleemeoConnector.emit_metric`:
`metric_point.service_label and metric_point.label ==
metric_point.service_label + '_status'` (Python truthiness: the empty service
label short-circuits to false). -/
def is_service_status (p : MetricPoint) : Bool :=
  p.service_label ≠ "" && p.label == p.service_label ++ "_status"

/-- The front gate of `BleemeoConnector.emit_metric`: either the point is
dropped, or it is pushed on `_metric_queue` and its registration request is
recorded.  `duplicate_disable_until` is nonzero while the duplicate-agent
hold-off is active. -/
inductive EmitAction where
  | drop
  | enqueue
  deriving DecidableEq, Repr

/-- Decision taken by `BleemeoConnector.emit_metric` for a point. -/
def emit_metric_action (duplicate_disable_until : Int)
    (current_config : Option AgentConfig) (p : MetricPoint) : EmitAction :=
  if duplicate_disable_until ≠ 0 then .drop
  else if !sent_metric current_config p.label (is_service_status p) then .drop
  else if (match current_config with
           | some cfg => !cfg.docker_integration && p.container_name ≠ ""
           | none => false) then .drop
  else .enqueue

/-! ## C2: the outbound publish cap (`BleemeoConnector.publish`) -/

/-- The broker-facing state touched by `publish`: the outbound counter
`_mqtt_queue_size` and the sequence of messages handed to the MQTT client. -/
structure MqttOutState where
  mqtt_queue_size : Int
  published : List (String × String)
  deriving DecidableEq, Repr

/-- `BleemeoConnector.publish`: drop silently when the counter is over
`MQTT_QUEUE_MAX_SIZE` and the publish is not forced; otherwise increment the
counter and hand the message to the client. -/
def publish (st : MqttOutState) (topic message : String) (force : Bool) :
    MqttOutState :=
  if st.mqtt_queue_size > MQTT_QUEUE_MAX_SIZE && !force then
    st
  else
    { mqtt_queue_size := st.mqtt_queue_size + 1,
      published := st.published ++ [(topic, message)] }

/-! ## C3: per-point dispatch of the emission batching loop
(`BleemeoConnector._loop`) -/

/-- The rendered broker message built by `_loop` for a registered metric. -/
structure BleemeoMetricMsg where
  uuid : String
  measurement : String
  time : Int
  value : Int
  item : Option String
  status : Option String
  event_grace_period : Option Int
  check_output : Option String
  deriving DecidableEq, Repr

/-- `STATUS_NAME` of `bleemeo_agent.type` (ok/warning/critical/unknown). -/
def STATUS_NAME (code : Nat) : String :=
  if code = 0 then "ok"
  else if code = 1 then "warning"
  else if code = 2 then "critical"
  else "unknown"

/-- What `_loop` does with one point pulled off `_metric_queue`. -/
inductive PointAction where
  | drop
  | deferToUnregisteredQueue
  | emitMsg (msg : BleemeoMetricMsg)
  deriving DecidableEq, Repr

/-- The `(label, short_item)` key under which `_loop` looks a point up in
`metrics_by_labelitem`: the item is clipped to 100 characters, and to 50 when
the point belongs to a service instance. -/
def loop_point_key (p : MetricPoint) : String × String :=
  let item := dictGetD p.labels "item" ""
  let short_item := item.take API_METRIC_ITEM_LENGTH
  let short_item :=
    if p.service_instance ≠ "" then short_item.take API_SERVICE_INSTANCE_LENGTH
    else short_item
  (p.label, short_item)

/-- Per-point dispatch of `BleemeoConnector._loop`, translated directly from
the body of the drain loop.  `metrics_by_labelitem` is the cache index,
`current_metrics_keys` the key set of `_current_metrics`, `services` maps
`(service_label, service_instance)` to `last_kill_at`, `now` is wall-clock
time and `clock_now` the monotonic clock. -/
def loop_point_action (duplicate_disable_until : Int)
    (metrics_by_labelitem : List ((String × String) × Metric))
    (current_metrics_keys : List (String × String))
    (services : List ((String × String) × Int))
    (now clock_now : Int) (p : MetricPoint) : PointAction :=
  if duplicate_disable_until ≠ 0 then .drop
  else
    let key := loop_point_key p
    match metrics_by_labelitem.lookup key with
    | none =>
      if now - p.time > 7200 then .drop
      else if !current_metrics_keys.contains key then .drop
      else .deferToUnregisteredQueue
    | some metric =>
      let status := p.status_code.map STATUS_NAME
      let grace :=
        match p.status_code with
        | none => none
        | some _ =>
          if p.service_label ≠ "" then
            let last_kill_at :=
              ((services.lookup (p.service_label, p.service_instance)).getD 0)
            let grace_period := last_kill_at + 300 - clock_now
            -- Ignore grace period shorter than 1 minute
            if grace_period > 60 then some grace_period else none
          else none
      .emitMsg
        { uuid := metric.uuid,
          measurement := metric.label,
          time := p.time,
          value := p.value,
          item := dictGet metric.labels "item",
          status := status,
          event_grace_period := grace,
          check_output :=
            if p.problem_origin ≠ "" then some p.problem_origin else none }

/-! ## Theorems for C1 -/

/-- C1: the whitelist gate `sent_metric` allows every point when the cache has
no `current_config`; allows every point when `metrics_whitelist` is empty;
always allows service status points (nonempty `service_label` with
`label = service_label ++ "_status"`, as computed by `emit_metric`); and
otherwise allows a point exactly when its label is in the whitelist. -/
theorem sent_metric_whitelist_gate (cfg : AgentConfig) (name : String)
    (st : Bool) (p : MetricPoint) :
    sent_metric none name st = true ∧
    (cfg.metrics_whitelist = [] → sent_metric (some cfg) name st = true) ∧
    (is_service_status p = true →
      sent_metric (some cfg) p.label (is_service_status p) = true) ∧
    (cfg.metrics_whitelist ≠ [] → st = false →
      (sent_metric (some cfg) name st = true ↔
        name ∈ cfg.metrics_whitelist)) := by
  refine ⟨rfl, ?_, ?_, ?_⟩
  · intro h
    simp [sent_metric, h]
  · intro h
    simp only [sent_metric, h]
    split <;> simp
  · intro hne hst
    subst hst
    simp only [sent_metric]
    rw [if_neg (by simpa [List.isEmpty_iff] using hne)]
    simp [List.contains, List.elem_eq_mem]

/-- A sample configuration whose whitelist holds only `cpu_used`. -/
def c1cfg : AgentConfig :=
  { uuid := "c", name := "cfg", docker_integration := true,
    topinfo_period := 10, metrics_whitelist := ["cpu_used"],
    metric_resolution := 10 }

/-- A sample `nginx_status` point emitted by the `nginx` service check. -/
def c1nginxPoint : MetricPoint :=
  { label := "nginx_status", labels := [], time := 0, value := 0,
    service_label := "nginx", service_instance := "", container_name := "",
    status_of := none, status_code := none, problem_origin := "" }

/-- A sample plain point with no service attached. -/
def c1plainPoint : MetricPoint :=
  { label := "x", labels := [], time := 0, value := 0, service_label := "",
    service_instance := "", container_name := "", status_of := none,
    status_code := none, problem_origin := "" }

/-- Witness for C1, the whitelist-gating scenario: with whitelist
`{"cpu_used"}`, `cpu_used` is allowed, `disk_used_perc` is refused, and
`nginx_status` from service `nginx` is allowed regardless. -/
theorem sent_metric_whitelist_gate_witness :
    sent_metric none "cpu_used" false = true ∧
    sent_metric (some c1cfg) "cpu_used" false = true ∧
    sent_metric (some c1cfg) "disk_used_perc" false = false ∧
    sent_metric (some c1cfg) "nginx_status"
      (is_service_status c1nginxPoint) = true := by
  refine ⟨(sent_metric_whitelist_gate c1cfg "cpu_used" false c1plainPoint).1,
    ?_, ?_, ?_⟩
  · exact ((sent_metric_whitelist_gate c1cfg "cpu_used" false
      c1plainPoint).2.2.2 (by decide) rfl).mpr (by decide)
  · have h := (sent_metric_whitelist_gate c1cfg "disk_used_perc" false
      c1plainPoint).2.2.2 (by decide) rfl
    revert h
    decide
  · have h := (sent_metric_whitelist_gate c1cfg "nginx_status" false
      c1nginxPoint).2.2.1 (by decide)
    simpa [c1nginxPoint] using h

/-! ## Theorems for C2 -/

/-- C2 counterexample: with the counter exactly at 2,000 (the claimed cap), a
non-forced publish is NOT dropped — the guard in the source is the strict
comparison `_mqtt_queue_size > MQTT_QUEUE_MAX_SIZE`, so the message is
enqueued and the counter incremented. -/
theorem publish_at_cap_counterexample :
    publish { mqtt_queue_size := 2000, published := [] } "topic" "msg" false =
      { mqtt_queue_size := 2001, published := [("topic", "msg")] } := by
  decide

/-- C2 (amended): a non-forced publish is dropped (state unchanged) exactly
when the outbound counter strictly exceeds 2,000; a forced publish always
increments the counter and enqueues, and so does any publish with the counter
at or below 2,000. -/
theorem publish_cap (st : MqttOutState) (topic message : String)
    (force : Bool) :
    (st.mqtt_queue_size > MQTT_QUEUE_MAX_SIZE → force = false →
      publish st topic message force = st) ∧
    (force = true →
      publish st topic message force =
        { mqtt_queue_size := st.mqtt_queue_size + 1,
          published := st.published ++ [(topic, message)] }) ∧
    (st.mqtt_queue_size ≤ MQTT_QUEUE_MAX_SIZE →
      publish st topic message force =
        { mqtt_queue_size := st.mqtt_queue_size + 1,
          published := st.published ++ [(topic, message)] }) := by
  refine ⟨?_, ?_, ?_⟩
  · intro hgt hforce
    subst hforce
    simp [publish, hgt]
  · intro hforce
    subst hforce
    simp [publish]
  · intro hle
    have : ¬ st.mqtt_queue_size > MQTT_QUEUE_MAX_SIZE := not_lt.mpr hle
    simp [publish, this]

/-- Witness for C2 (amended): at counter 2,001 a non-forced publish is a
no-op, while a forced one enqueues; at 2,000 a non-forced publish enqueues. -/
theorem publish_cap_witness :
    publish { mqtt_queue_size := 2001, published := [] } "t" "m" false =
      { mqtt_queue_size := 2001, published := [] } ∧
    publish { mqtt_queue_size := 2001, published := [] } "t" "m" true =
      { mqtt_queue_size := 2002, published := [("t", "m")] } ∧
    publish { mqtt_queue_size := 2000, published := [] } "t" "m" false =
      { mqtt_queue_size := 2001, published := [("t", "m")] } :=
  ⟨(publish_cap { mqtt_queue_size := 2001, published := [] } "t" "m" false).1
      (by decide) rfl,
   (publish_cap { mqtt_queue_size := 2001, published := [] } "t" "m"
      true).2.1 rfl,
   (publish_cap { mqtt_queue_size := 2000, published := [] } "t" "m"
      false).2.2 (by decide)⟩

/-! ## Theorems for C3 -/

/-- A fresh `cpu_used` point, unknown both to the cache index and to
`_current_metrics`. -/
def c3freshPoint : MetricPoint :=
  { label := "cpu_used", labels := [], time := 1000, value := 0,
    service_label := "", service_instance := "", container_name := "",
    status_of := none, status_code := none, problem_origin := "" }

/-- C3 counterexample: a point whose `(label, item)` key is absent from the
cache index and whose timestamp is current (not older than 7,200 s) is still
DROPPED — not deferred — when its key is also absent from
`_current_metrics`; `_loop` has a third alternative the claim omits. -/
theorem loop_unknown_metric_counterexample :
    loop_point_action 0 [] [] [] 1000 1000 c3freshPoint = PointAction.drop ∧
    loop_point_action 0 [] [] [] 1000 1000 c3freshPoint ≠
      PointAction.deferToUnregisteredQueue := by
  refine ⟨by decide, by decide⟩

/-- C3 (amended): for a point whose key has no metric in
`metrics_by_labelitem` (outside a duplicate-agent hold-off): it is dropped
when older than 7,200 s; a younger point is deferred to the
unregistered-metric queue when its key is tracked in `_current_metrics`, and
dropped otherwise. -/
theorem loop_unknown_metric (idx : List ((String × String) × Metric))
    (cur : List (String × String)) (svc : List ((String × String) × Int))
    (now clock_now : Int) (p : MetricPoint)
    (hunknown : idx.lookup (loop_point_key p) = none) :
    (now - p.time > 7200 →
      loop_point_action 0 idx cur svc now clock_now p = PointAction.drop) ∧
    (now - p.time ≤ 7200 → loop_point_key p ∈ cur →
      loop_point_action 0 idx cur svc now clock_now p =
        PointAction.deferToUnregisteredQueue) ∧
    (now - p.time ≤ 7200 → loop_point_key p ∉ cur →
      loop_point_action 0 idx cur svc now clock_now p = PointAction.drop) := by
  refine ⟨?_, ?_, ?_⟩
  · intro hold
    simp [loop_point_action, hunknown, hold]
  · intro hyoung hmem
    have hnot : ¬ now - p.time > 7200 := not_lt.mpr hyoung
    simp [loop_point_action, hunknown, hnot, List.contains, List.elem_eq_mem, hmem]
  · intro hyoung hmem
    have hnot : ¬ now - p.time > 7200 := not_lt.mpr hyoung
    simp [loop_point_action, hunknown, hnot, List.contains, List.elem_eq_mem, hmem]

/-- An aged point (emitted at time 0, drained at wall-clock 10,000). -/
def c3oldPoint : MetricPoint :=
  { label := "old", labels := [], time := 0, value := 0, service_label := "",
    service_instance := "", container_name := "", status_of := none,
    status_code := none, problem_origin := "" }

/-- Witness for C3 (amended): concrete instances of all three branches. -/
theorem loop_unknown_metric_witness :
    loop_point_action 0 [] [("old", "")] [] 10000 0 c3oldPoint =
      PointAction.drop ∧
    loop_point_action 0 [] [("cpu_used", "")] [] 1000 0 c3freshPoint =
      PointAction.deferToUnregisteredQueue ∧
    loop_point_action 0 [] [] [] 1000 0 c3freshPoint = PointAction.drop :=
  ⟨(loop_unknown_metric [] [("old", "")] [] 10000 0 c3oldPoint
      (by decide)).1 (by decide),
   (loop_unknown_metric [] [("cpu_used", "")] [] 1000 0 c3freshPoint
      (by decide)).2.1 (by decide) (by decide),
   (loop_unknown_metric [] [] [] 1000 0 c3freshPoint
      (by decide)).2.2 (by decide) (by decide)⟩

/-! ## C4: authentication retry of the API client
(`BleemeoAPI.api_call`, `BleemeoAPI._get_jwt`) -/

/-- Errors raised by `BleemeoAPI`: `_get_jwt` raises `AuthApiError` when the
authentication response is not 200 but below 500, and `ApiError` on 5xx. -/
inductive ApiErr where
  | authApiError (status : Nat)
  | apiError (status : Nat)
  deriving DecidableEq, Repr

/-- Outcome of one `api_call` invocation driven by finite response traces.
`outOfTrace` marks an exhausted trace (under-specified environment), not a
behaviour of the code. -/
inductive CallOutcome where
  | response (status : Nat)
  | raised (e : ApiErr)
  | outOfTrace
  deriving DecidableEq, Repr

/-- The `while True` loop of `BleemeoAPI.api_call`.  `jwtResps` lists the
`(status, token)` pairs returned by successive `v1/jwt-auth/` posts
(`_get_jwt`), `reqStatuses` the statuses of successive requests to the target
URL.  Each iteration first acquires a token when `_jwt_token` is `None`
(raising as `_get_jwt` does on a non-200 status), then performs the request;
a 401 on the first call clears the token and loops once more.  Returns the
outcome together with the number of requests and of authentication posts. -/
def apiCallLoop (firstCall : Bool) (token : Option String)
    (jwtResps : List (Nat × String)) (reqStatuses : List Nat)
    (nReq nJwt : Nat) : CallOutcome × Nat × Nat :=
  match token, jwtResps, reqStatuses with
  | none, [], _ => (.outOfTrace, nReq, nJwt)
  | none, (js, _jt) :: jrest, reqStatuses =>
    if js ≠ 200 then
      if js < 500 then (.raised (.authApiError js), nReq, nJwt + 1)
      else (.raised (.apiError js), nReq, nJwt + 1)
    else
      match reqStatuses with
      | [] => (.outOfTrace, nReq, nJwt + 1)
      | status :: rest =>
        if status = 401 && firstCall then
          apiCallLoop false none jrest rest (nReq + 1) (nJwt + 1)
        else (.response status, nReq + 1, nJwt + 1)
  | some _tok, _jwtResps, [] => (.outOfTrace, nReq, nJwt)
  | some _tok, jwtResps, status :: rest =>
    if status = 401 && firstCall then
      apiCallLoop false none jwtResps rest (nReq + 1) nJwt
    else (.response status, nReq + 1, nJwt)
termination_by reqStatuses.length
decreasing_by all_goals simp_arith [*]

/-- `BleemeoAPI.api_call`: enter the loop with `first_call=True` and the
cached token. -/
def api_call (token : Option String) (jwtResps : List (Nat × String))
    (reqStatuses : List Nat) : CallOutcome × Nat × Nat :=
  apiCallLoop true token jwtResps reqStatuses 0 0

/-! ## Theorems for C4 -/

/-- C4: with a cached token, a 401 answered by the first request makes the
client re-authenticate exactly once and retry; when the retry answers 200 the
call returns 200 having made exactly two requests and one authentication
post, raising nothing.  If instead the re-authentication answers a 4xx, the
call raises `AuthApiError` (`AUTH_ERROR`). -/
theorem api_call_auth_retry (tok jt jt2 : String)
    (jrest : List (Nat × String)) (rest rest2 : List Nat) :
    api_call (some tok) ((200, jt) :: jrest) (401 :: 200 :: rest) =
      (CallOutcome.response 200, 2, 1) ∧
    (∀ s : Nat, 400 ≤ s → s < 500 →
      api_call (some tok) ((s, jt2) :: jrest) (401 :: rest2) =
        (CallOutcome.raised (ApiErr.authApiError s), 1, 1)) := by
  constructor
  · simp [api_call, apiCallLoop]
  · intro s h400 h500
    have hne : s ≠ 200 := by omega
    simp only [api_call]
    rw [apiCallLoop.eq_def]
    simp only [ite_true, if_pos rfl, Bool.and_true, decide_True, Bool.true_and]
    rw [apiCallLoop.eq_def]
    simp [hne, h500]

/-- Witness for C4: the concrete 401-then-200 trace, and a concrete
re-authentication failure with status 403. -/
theorem api_call_auth_retry_witness :
    api_call (some "tok") [(200, "fresh")] [401, 200] =
      (CallOutcome.response 200, 2, 1) ∧
    api_call (some "tok") [(403, "ignored")] [401] =
      (CallOutcome.raised (ApiErr.authApiError 403), 1, 1) :=
  ⟨(api_call_auth_retry "tok" "fresh" "ignored" [] [] []).1,
   (api_call_auth_retry "tok" "fresh" "ignored" [] [] []).2 403
      (by decide) (by decide)⟩

/-! ## C5: the secondary index round-trips
(`BleemeoCache.update_lookup_map`) -/

/-- The mutable state of a `BleemeoCache` object: the five primary maps (and
scalar fields) set up by `__init__`, plus the four secondary indexes rebuilt
by `update_lookup_map`.  The `registration_at` wall-clock datetime is carried
in its stored textual form. -/
structure BleemeoCacheState where
  metrics : List (String × Metric)
  services : List (String × Service)
  tags : List String
  containers : List (String × Container)
  facts : List (String × AgentFact)
  current_config : Option AgentConfig
  next_config_at : Option Int
  registration_at : Option String
  account_id : Option String
  metrics_by_labelitem : List ((String × String) × Metric)
  containers_by_name : List (String × Container)
  services_by_labelinstance : List ((String × String) × Service)
  facts_by_key : List (String × AgentFact)
  deriving DecidableEq, Repr

/-- The `(label, item)` identity under which a cached metric is indexed. -/
def metric_identity (m : Metric) : String × String :=
  (m.label, dictGetD m.labels "item" "")

/-- `BleemeoCache.update_lookup_map`: rebuild the four secondary indexes from
the primary maps. -/
def update_lookup_map (c : BleemeoCacheState) : BleemeoCacheState :=
  { c with
    metrics_by_labelitem :=
      c.metrics.foldl
        (fun idx kv => dictInsert idx (metric_identity kv.2) kv.2) [],
    containers_by_name :=
      c.containers.foldl (fun idx kv => dictInsert idx kv.2.name kv.2) [],
    services_by_labelinstance :=
      c.services.foldl
        (fun idx kv => dictInsert idx (kv.2.label, kv.2.instance_) kv.2) [],
    facts_by_key :=
      c.facts.foldl (fun idx kv => dictInsert idx kv.2.key kv.2) [] }

/-! Generic facts about rebuilding a dictionary index by folding insertions. -/

theorem dictGet_dictInsert_self {κ α : Type} [DecidableEq κ]
    (l : List (κ × α)) (k : κ) (v : α) : dictGet (dictInsert l k v) k = some v := by
  induction l with
  | nil => simp [dictGet, dictInsert]
  | cons kv rest ih =>
    by_cases h : kv.1 = k
    · simp [dictInsert, dictGet, h]
    · simp [dictInsert, dictGet, h, ih]

theorem dictGet_dictInsert_ne {κ α : Type} [DecidableEq κ]
    (l : List (κ × α)) (k k' : κ) (v : α) (h : k' ≠ k) :
    dictGet (dictInsert l k' v) k = dictGet l k := by
  induction l with
  | nil => simp [dictGet, dictInsert, h]
  | cons kv rest ih =>
    by_cases hk : kv.1 = k'
    · simp [dictInsert, dictGet, hk, h]
    · simp only [dictInsert, hk, if_false, dictGet]
      by_cases hk2 : kv.1 = k <;> simp [hk2, ih]

theorem foldl_insert_get_of_all_ne {κ α β : Type} [DecidableEq κ]
    (key : β → κ) (l : List β) (idx : List (κ × α)) (f : β → α) (k : κ)
    (h : ∀ y ∈ l, key y ≠ k) :
    dictGet (l.foldl (fun idx y => dictInsert idx (key y) (f y)) idx) k =
      dictGet idx k := by
  induction l generalizing idx with
  | nil => rfl
  | cons x xs ih =>
    rw [List.foldl_cons, ih _ fun y hy => h y (List.mem_cons_of_mem _ hy),
      dictGet_dictInsert_ne _ _ _ _ (h x (List.mem_cons_self _ _))]

theorem foldl_insert_get_self {κ α β : Type} [DecidableEq κ]
    (key : β → κ) (l : List β) (idx : List (κ × α)) (f : β → α) (m : β)
    (hm : m ∈ l) (hp : l.Pairwise (fun a b => key a ≠ key b)) :
    dictGet (l.foldl (fun idx y => dictInsert idx (key y) (f y)) idx)
      (key m) = some (f m) := by
  induction l generalizing idx with
  | nil => cases hm
  | cons x xs ih =>
    rcases List.mem_cons.mp hm with hx | hxs
    · subst hx
      rw [List.foldl_cons,
        foldl_insert_get_of_all_ne key xs (dictInsert idx (key m) (f m)) f
          (key m) (fun y hy => Ne.symm ((List.pairwise_cons.mp hp).1 y hy)),
        dictGet_dictInsert_self]
    · exact ih _ hxs (List.pairwise_cons.mp hp).2

/-! ## Theorems for C5 -/

/-- C5: in a cache where no two metrics share the same `(label, item)`
identity, rebuilding the indexes makes every metric of `cache.metrics`
round-trip: looking its identity up in `metrics_by_labelitem` returns that
very metric. -/
theorem update_lookup_map_roundtrip (c : BleemeoCacheState)
    (huniq : (c.metrics.map Prod.snd).Pairwise
      (fun a b => metric_identity a ≠ metric_identity b)) :
    ∀ m ∈ c.metrics.map Prod.snd,
      dictGet (update_lookup_map c).metrics_by_labelitem
        (metric_identity m) = some m := by
  intro m hm
  have h := foldl_insert_get_self (fun m : Metric => metric_identity m)
    (c.metrics.map Prod.snd) [] id m hm huniq
  simpa [update_lookup_map, List.foldl_map] using h

/-- The empty cache state built by `BleemeoCache.__init__` before loading. -/
def initCacheState : BleemeoCacheState :=
  { metrics := [], services := [], tags := [], containers := [], facts := [],
    current_config := none, next_config_at := none, registration_at := none,
    account_id := none, metrics_by_labelitem := [], containers_by_name := [],
    services_by_labelinstance := [], facts_by_key := [] }

/-- A cached `cpu_used` metric with no item, for the C5 witness. -/
def c5m1 : Metric :=
  { uuid := "u1", label := "cpu_used", labels := [], service_uuid := none,
    container_uuid := none, status_of := none,
    thresholds := ⟨none, none, none, none⟩, unit := none, unit_text := none,
    deactivated_at := none }

/-- A cached `disk_used` metric with item `/home`, for the C5 witness. -/
def c5m2 : Metric :=
  { uuid := "u2", label := "disk_used", labels := [("item", "/home")],
    service_uuid := none, container_uuid := none, status_of := none,
    thresholds := ⟨none, none, none, none⟩, unit := none, unit_text := none,
    deactivated_at := none }

/-- A two-metric cache with distinct identities, for the C5 witness. -/
def c5cache : BleemeoCacheState :=
  { initCacheState with metrics := [("u1", c5m1), ("u2", c5m2)] }

/-- Witness for C5: both metrics of the sample cache round-trip through the
rebuilt `metrics_by_labelitem`. -/
theorem update_lookup_map_roundtrip_witness :
    metric_identity c5m1 = ("cpu_used", "") ∧
    metric_identity c5m2 = ("disk_used", "/home") ∧
    dictGet (update_lookup_map c5cache).metrics_by_labelitem
      (metric_identity c5m1) = some c5m1 ∧
    dictGet (update_lookup_map c5cache).metrics_by_labelitem
      (metric_identity c5m2) = some c5m2 :=
  ⟨by decide, by decide,
   update_lookup_map_roundtrip c5cache (by decide) c5m1 (by decide),
   update_lookup_map_roundtrip c5cache (by decide) c5m2 (by decide)⟩

/-! ## C6: versioned cache load (`BleemeoCache.__init__`, `_reload`) -/

/-- `BleemeoCache.CACHE_VERSION` (version 7: labels stored instead of item). -/
def CACHE_VERSION : Nat := 7

/-- The stored `_bleemeo_cache` envelope.  Entries are modelled in their
current (version-7) layout; the forward migrations `_reload` applies to the
tuple internals of older layouts (versions below 7) rewrite field encodings
only and are not needed for the properties proved here. -/
structure CacheEnvelope where
  version : Nat
  tags : List String
  metrics : List (String × Metric)
  services : List (String × Service)
  containers : List (String × Container)
  facts : List AgentFact
  current_config : Option AgentConfig
  next_config_at : Option Int
  registration_at : Option String
  account_id : Option String
  deriving DecidableEq, Repr

/-- `BleemeoCache._reload`: refuse to read an envelope written by a newer
agent (version above `CACHE_VERSION`), leaving the state untouched; otherwise
replace the maps from the envelope (containers exist only from envelope
version 2 on) and rebuild the secondary indexes. -/
def reload (self : BleemeoCacheState) (cache : CacheEnvelope) :
    BleemeoCacheState :=
  if cache.version > CACHE_VERSION then self
  else
    update_lookup_map
      { self with
        metrics := cache.metrics,
        services := cache.services,
        tags := cache.tags,
        containers := if cache.version > 1 then cache.containers else [],
        facts := cache.facts.foldl
          (fun d fact => dictInsert d fact.uuid fact) [],
        current_config := cache.current_config,
        next_config_at :=
          match cache.next_config_at with
          | some t => if t ≠ 0 then some t else self.next_config_at
          | none => self.next_config_at,
        registration_at :=
          match cache.registration_at with
          | some r => if r ≠ "" then some r else self.registration_at
          | none => self.registration_at,
        account_id :=
          match cache.account_id with
          | some a => if a ≠ "" then some a else self.account_id
          | none => self.account_id }

/-- Loading a cache: `BleemeoCache.__init__` starts from the empty state and
calls `_reload` on the stored envelope. -/
def loadCache (cache : CacheEnvelope) : BleemeoCacheState :=
  reload initCacheState cache

/-! ## Theorems for C6 -/

/-- C6: an envelope whose version exceeds `CACHE_VERSION` (7) is discarded
wholesale: after loading, the cache has no metrics, services, containers,
facts, tags, or config — it equals the state `__init__` builds. -/
theorem load_newer_version_empty (cache : CacheEnvelope)
    (h : cache.version > CACHE_VERSION) :
    loadCache cache = initCacheState ∧
    (loadCache cache).metrics = [] ∧
    (loadCache cache).services = [] ∧
    (loadCache cache).containers = [] ∧
    (loadCache cache).facts = [] ∧
    (loadCache cache).tags = [] ∧
    (loadCache cache).current_config = none := by
  have hload : loadCache cache = initCacheState := by
    simp [loadCache, reload, h]
  refine ⟨hload, ?_, ?_, ?_, ?_, ?_, ?_⟩ <;> rw [hload] <;> rfl

/-- A version-8 envelope full of data, for the C6 witness. -/
def c6envelope : CacheEnvelope :=
  { version := 8, tags := ["prod"], metrics := [("u1", c5m1)],
    services := [], containers := [],
    facts := [{ uuid := "f1", key := "fqdn", value := "host.example" }],
    current_config := some c1cfg, next_config_at := some 100,
    registration_at := some "2018-06-08 09:06:53.310377",
    account_id := some "acct-1" }

/-- Witness for C6: loading the version-8 envelope yields the empty state. -/
theorem load_newer_version_empty_witness :
    loadCache c6envelope = initCacheState ∧
    (loadCache c6envelope).metrics = [] :=
  ⟨(load_newer_version_empty c6envelope (by decide)).1,
   (load_newer_version_empty c6envelope (by decide)).2.1⟩

/-! ## C7: duplicate-agent detection
(`BleemeoConnector._sync_check_duplicated`) -/

/-- The connector state touched by `_sync_check_duplicated` on detection. -/
structure DupCheckState where
  last_duplicated_events : List Int
  duplicate_disable_until : Int
  mqtt_reconnect_at : Int
  deriving DecidableEq, Repr

/-- The key facts compared by `_sync_check_duplicated`. -/
def keyFactNames : List String := ["fqdn", "primary_address",
  "primary_mac_address"]

/-- `_sync_check_duplicated` fires when some key fact is present in both the
old and the freshly fetched `facts_by_key` with different values. -/
def duplicated_fact_detected (old_facts new_facts : List (String × AgentFact)) :
    Bool :=
  keyFactNames.any fun name =>
    match dictGet old_facts name, dictGet new_facts name with
    | some o, some n => o.value ≠ n.value
    | _, _ => false

/-- The detection branch of `BleemeoConnector._sync_check_duplicated`: append
the clock to the ring of the last 15 events, choose the hold-off delay
(`900 + randint(-60, 60)` when the ring has at least 3 events and the
3rd-most-recent is newer than `clock_now - 3600`, else `300 + randint(-60,
60)`), and push both `_duplicate_disable_until` and `_mqtt_reconnect_at` to
`clock_now + delay`.  `r` is the value drawn by `random.randint(-60, 60)`. -/
def sync_check_duplicated (st : DupCheckState)
    (old_facts new_facts : List (String × AgentFact)) (clock_now r : Int) :
    DupCheckState :=
  if duplicated_fact_detected old_facts new_facts then
    let events := lastN 15 (st.last_duplicated_events ++ [clock_now])
    let delay :=
      if 3 ≤ events.length ∧
          events.getD (events.length - 3) 0 > clock_now - 3600 then
        900 + r
      else
        300 + r
    { last_duplicated_events := events,
      duplicate_disable_until := clock_now + delay,
      mqtt_reconnect_at := clock_now + delay }
  else st

/-! ## Theorems for C7 -/

/-- Old facts for the C7 counterexample: fqdn `A`. -/
def c7old : List (String × AgentFact) :=
  [("fqdn", { uuid := "f1", key := "fqdn", value := "A" })]

/-- Fresh facts for the C7 counterexample: fqdn changed to `B`. -/
def c7new : List (String × AgentFact) :=
  [("fqdn", { uuid := "f2", key := "fqdn", value := "B" })]

/-- C7 counterexample: with two prior events at clock 0 and a detection at
clock 3600, the ring holds 3 events and the 3rd-most-recent (clock 0) is
exactly 3,600 seconds old — "at most 3600" per the claim — yet the code
takes the short branch: the hold-off is 300 + r (here r = 0, so until clock
3900), not 900±60.  The source compares with strict `>`
(`events[-3] > clock_now - 3600`). -/
theorem sync_check_duplicated_counterexample :
    sync_check_duplicated ⟨[0, 0], 0, 0⟩ c7old c7new 3600 0 =
      ⟨[0, 0, 3600], 3900, 3900⟩ ∧
    ¬ (3600 + 840 ≤ (3900 : Int) ∧ (3900 : Int) ≤ 3600 + 960) := by
  exact ⟨by decide, by decide⟩

/-- C7 (amended): on detection of a changed key fact, the clock is recorded
in a ring of the last 15 events; the hold-off is 900±60 s when at least 3
events are recorded and the 3rd-most-recent is STRICTLY less than 3,600 s
old, else 300±60 s; and the broker reconnect time is pushed out to the same
instant. -/
theorem sync_check_duplicated_holdoff (st : DupCheckState)
    (old_facts new_facts : List (String × AgentFact)) (clock_now r : Int)
    (hdet : duplicated_fact_detected old_facts new_facts = true)
    (hr : -60 ≤ r ∧ r ≤ 60) :
    (sync_check_duplicated st old_facts new_facts clock_now r).last_duplicated_events =
      lastN 15 (st.last_duplicated_events ++ [clock_now]) ∧
    (sync_check_duplicated st old_facts new_facts clock_now r).mqtt_reconnect_at =
      (sync_check_duplicated st old_facts new_facts clock_now r).duplicate_disable_until ∧
    (if 3 ≤ (lastN 15 (st.last_duplicated_events ++ [clock_now])).length ∧
        clock_now - (lastN 15 (st.last_duplicated_events ++ [clock_now])).getD
          ((lastN 15 (st.last_duplicated_events ++ [clock_now])).length - 3) 0 < 3600 then
      840 ≤ (sync_check_duplicated st old_facts new_facts clock_now r).duplicate_disable_until -
          clock_now ∧
        (sync_check_duplicated st old_facts new_facts clock_now r).duplicate_disable_until -
          clock_now ≤ 960
    else
      240 ≤ (sync_check_duplicated st old_facts new_facts clock_now r).duplicate_disable_until -
          clock_now ∧
        (sync_check_duplicated st old_facts new_facts clock_now r).duplicate_disable_until -
          clock_now ≤ 360) := by
  have hev : (sync_check_duplicated st old_facts new_facts clock_now r).last_duplicated_events =
      lastN 15 (st.last_duplicated_events ++ [clock_now]) := by
    simp only [sync_check_duplicated, hdet, if_true]
  have hdd : (sync_check_duplicated st old_facts new_facts clock_now r).duplicate_disable_until =
      clock_now +
        (if 3 ≤ (lastN 15 (st.last_duplicated_events ++ [clock_now])).length ∧
            (lastN 15 (st.last_duplicated_events ++ [clock_now])).getD
              ((lastN 15 (st.last_duplicated_events ++ [clock_now])).length - 3) 0 >
              clock_now - 3600 then 900 + r else 300 + r) := by
    simp only [sync_check_duplicated, hdet, if_true]
  have hmq : (sync_check_duplicated st old_facts new_facts clock_now r).mqtt_reconnect_at =
      (sync_check_duplicated st old_facts new_facts clock_now r).duplicate_disable_until := by
    simp only [sync_check_duplicated, hdet, if_true]
  refine ⟨hev, hmq, ?_⟩
  by_cases hc : 3 ≤ (lastN 15 (st.last_duplicated_events ++ [clock_now])).length ∧
      (lastN 15 (st.last_duplicated_events ++ [clock_now])).getD
        ((lastN 15 (st.last_duplicated_events ++ [clock_now])).length - 3) 0 > clock_now - 3600
  · rw [if_pos ⟨hc.1, by have := hc.2; omega⟩]
    rw [hdd, if_pos hc]
    omega
  · rw [if_neg ?hcneg]
    case hcneg =>
      intro h
      exact hc ⟨h.1, by have := h.2; omega⟩
    rw [hdd, if_neg hc]
    omega

/-- Witness for C7 (amended): a first detection (empty ring) at clock 1000
with r = 60 holds off until 1360, i.e. for 300+60 seconds, and forces the
broker session down for the same window. -/
theorem sync_check_duplicated_holdoff_witness :
    (sync_check_duplicated ⟨[], 0, 0⟩ c7old c7new 1000 60).last_duplicated_events =
      lastN 15 ([] ++ [1000]) ∧
    (sync_check_duplicated ⟨[], 0, 0⟩ c7old c7new 1000 60).mqtt_reconnect_at =
      (sync_check_duplicated ⟨[], 0, 0⟩ c7old c7new 1000 60).duplicate_disable_until ∧
    240 ≤ (sync_check_duplicated ⟨[], 0, 0⟩ c7old c7new 1000 60).duplicate_disable_until - 1000 ∧
    (sync_check_duplicated ⟨[], 0, 0⟩ c7old c7new 1000 60).duplicate_disable_until - 1000 ≤ 360 := by
  have h := sync_check_duplicated_holdoff ⟨[], 0, 0⟩ c7old c7new 1000 60
    (by decide) (by constructor <;> decide)
  refine ⟨h.1, h.2.1, ?_, ?_⟩
  · have h3 := h.2.2
    rw [if_neg (by decide)] at h3
    exact h3.1
  · have h3 := h.2.2
    rw [if_neg (by decide)] at h3
    exact h3.2

/-! ## C8: reconnect back-off after successive broker connect failures
(`BleemeoConnector.on_disconnect`) -/

/-- The connector state read and written by `on_disconnect`. -/
structure MqttConnState where
  connected : Bool
  last_disconnects : List Int
  successive_mqtt_errors : Nat
  mqtt_reconnect_at : Int
  trigger_fact_sync : Int
  deriving DecidableEq, Repr

/-- `BleemeoConnector.on_disconnect`, translated branch for branch.  `rand a
b` is the value `random.randint(a, b)` returns (inclusive bounds).  The
result code only selects a log message in the source. -/
def on_disconnect (rand : Int → Int → Int) (st : MqttConnState)
    (clock_now : Int) (_result_code : Nat) : MqttConnState :=
  let last_disconnects := lastN 15 (st.last_disconnects ++ [clock_now])
  let errors := st.successive_mqtt_errors + 1
  let st' :=
    { st with
      connected := false,
      last_disconnects := last_disconnects,
      successive_mqtt_errors := errors }
  if errors > 3 ∧ st.mqtt_reconnect_at = 0 then
    let delay := rand (min 300 (20 * (errors : Int)))
      (min 900 (60 * (errors : Int)))
    { st' with mqtt_reconnect_at := clock_now + delay }
  else if 6 ≤ last_disconnects.length ∧
      last_disconnects.getD (last_disconnects.length - 6) 0 > clock_now - 60 ∧
      st.mqtt_reconnect_at = 0 then
    let delay := 60 + rand (-15) 15
    { st' with
      mqtt_reconnect_at := clock_now + delay,
      trigger_fact_sync := clock_now }
  else if 15 ≤ last_disconnects.length ∧
      last_disconnects.getD (last_disconnects.length - 15) 0 >
        clock_now - 600 ∧
      st.mqtt_reconnect_at = 0 then
    let delay := 300 + rand (-60) 60
    { st' with
      mqtt_reconnect_at := clock_now + delay,
      trigger_fact_sync := clock_now }
  else st'

/-! ## Theorems for C8 -/

/-- C8 counterexample: on the 3rd successive connect failure (errors go from
2 to 3) with no hold-off pending and a sparse disconnect history, NO
reconnect hold-off is scheduled — `_mqtt_reconnect_at` stays 0.  The source
guard is `self._successive_mqtt_errors > 3`, which first fires on the 4th
failure. -/
theorem on_disconnect_third_failure_counterexample :
    on_disconnect (fun a _ => a) ⟨true, [], 2, 0, 0⟩ 1000 1 =
      ⟨false, [1000], 3, 0, 0⟩ ∧
    (on_disconnect (fun a _ => a) ⟨true, [], 2, 0, 0⟩ 1000 1).mqtt_reconnect_at = 0 := by
  exact ⟨by decide, by decide⟩

/-- C8 (amended): from the 4th successive connect failure on (the guard is
`errors > 3` after the increment), with no hold-off pending, `on_disconnect`
schedules a reconnect hold-off drawn from
`[min(300, 20·n), min(900, 60·n)]`, where n is the number of successive
connect failures. -/
theorem on_disconnect_backoff (rand : Int → Int → Int)
    (hrand : ∀ a b : Int, a ≤ b → a ≤ rand a b ∧ rand a b ≤ b)
    (st : MqttConnState) (clock_now : Int) (result_code : Nat)
    (herr : st.successive_mqtt_errors + 1 > 3)
    (hpend : st.mqtt_reconnect_at = 0) :
    (on_disconnect rand st clock_now result_code).successive_mqtt_errors =
      st.successive_mqtt_errors + 1 ∧
    clock_now + min 300 (20 * ((st.successive_mqtt_errors : Int) + 1)) ≤
      (on_disconnect rand st clock_now result_code).mqtt_reconnect_at ∧
    (on_disconnect rand st clock_now result_code).mqtt_reconnect_at ≤
      clock_now + min 900 (60 * ((st.successive_mqtt_errors : Int) + 1)) := by
  have key2 : (on_disconnect rand st clock_now result_code).successive_mqtt_errors =
      st.successive_mqtt_errors + 1 := by
    simp only [on_disconnect]
    rw [if_pos ⟨herr, hpend⟩]
  have key : (on_disconnect rand st clock_now result_code).mqtt_reconnect_at =
      clock_now + rand (min 300 (20 * ((st.successive_mqtt_errors + 1 : Nat) : Int)))
        (min 900 (60 * ((st.successive_mqtt_errors + 1 : Nat) : Int))) := by
    simp only [on_disconnect]
    rw [if_pos ⟨herr, hpend⟩]
  have hab : min 300 (20 * ((st.successive_mqtt_errors + 1 : Nat) : Int)) ≤
      min 900 (60 * ((st.successive_mqtt_errors + 1 : Nat) : Int)) := by omega
  have hb := hrand _ _ hab
  refine ⟨key2, ?_, ?_⟩ <;> rw [key] <;> omega

/-- Witness for C8 (amended): the 4th failure (errors 3 → 4) at clock 1000
schedules a hold-off within `[min(300, 80), min(900, 240)] = [80, 240]`. -/
theorem on_disconnect_backoff_witness :
    (on_disconnect (fun a _ => a) ⟨true, [], 3, 0, 0⟩ 1000 1).successive_mqtt_errors = 4 ∧
    1000 + min 300 (20 * (((3 : Nat) + 1 : Nat) : Int)) ≤
      (on_disconnect (fun a _ => a) ⟨true, [], 3, 0, 0⟩ 1000 1).mqtt_reconnect_at ∧
    (on_disconnect (fun a _ => a) ⟨true, [], 3, 0, 0⟩ 1000 1).mqtt_reconnect_at ≤
      1000 + min 900 (60 * (((3 : Nat) + 1 : Nat) : Int)) :=
  on_disconnect_backoff (fun a _ => a)
    (fun a b h => ⟨le_refl a, h⟩) ⟨true, [], 3, 0, 0⟩ 1000 1
    (by decide) rfl

/-! ## C9: the container inspect hash
(`sort_docker_inspect`, `BleemeoConnector._sync_containers`)

The inspect document is a JSON value; `_sync_containers` computes
`hashlib.sha1(json.dumps(sort_docker_inspect(inspect),
sort_keys=True).encode('utf-8')).hexdigest()`.  We model JSON values, the
canonical serializer (`sort_keys=True`, default separators, ASCII escaping)
and SHA-1 itself, over `Nat` with explicit reduction modulo `2^32`. -/

inductive JVal where
  | jnull
  | jbool (b : Bool)
  | jnum (n : Int)
  | jstr (s : String)
  | jarr (xs : List JVal)
  | jobj (fields : List (String × JVal))

/-- Code-point lexicographic comparison of character lists: Python's string
comparison, kept as an executable boolean. -/
def charsLt : List Char → List Char → Bool
  | _, [] => false
  | [], _ :: _ => true
  | c :: cs, d :: ds =>
    Nat.blt c.toNat d.toNat || (Nat.beq c.toNat d.toNat && charsLt cs ds)

/-- Python's `<` on strings. -/
def strLt (a b : String) : Bool := charsLt a.data b.data

/-- Strict lexicographic order on the `(Source, Destination)` sort key. -/
def pairLt (a b : String × String) : Prop :=
  strLt a.1 b.1 = true ∨ (a.1 = b.1 ∧ strLt a.2 b.2 = true)

instance (a b : String × String) : Decidable (pairLt a b) := by
  unfold pairLt
  infer_instance

/-- `x.get(key, '')` on a mount entry; docker mounts carry string values. -/
def mountKeyStr (fields : List (String × JVal)) (k : String) : String :=
  match dictGet fields k with
  | some (JVal.jstr s) => s
  | _ => ""

/-- The sort key `(x.get('Source', ''), x.get('Destination', ''))` used by
`sort_docker_inspect`. -/
def mountKey (m : JVal) : String × String :=
  match m with
  | JVal.jobj fields => (mountKeyStr fields "Source",
                         mountKeyStr fields "Destination")
  | _ => ("", "")

/-- One insertion step of a stable sort: walk past entries whose key is
strictly smaller, then insert (equal keys keep their original order, as
Python's stable `list.sort` does). -/
def insertMount (x : JVal) : List JVal → List JVal
  | [] => [x]
  | y :: ys =>
    if pairLt (mountKey y) (mountKey x) then y :: insertMount x ys
    else x :: y :: ys

/-- Stable sort of the mounts by `(Source, Destination)`; extensionally equal
to Python's stable in-place `sort` with that key. -/
def sortMounts : List JVal → List JVal
  | [] => []
  | x :: xs => insertMount x (sortMounts xs)

/-- `sort_docker_inspect`: when the inspect document has a non-empty
`Mounts` list, sort it in place by `(Source, Destination)`. -/
def sort_docker_inspect (inspect : JVal) : JVal :=
  match inspect with
  | JVal.jobj fields =>
    match dictGet fields "Mounts" with
    | some (JVal.jarr (m :: ms)) =>
      JVal.jobj (dictInsert fields "Mounts"
        (JVal.jarr (sortMounts (m :: ms))))
    | _ => inspect
  | _ => inspect

/-! The canonical serializer: `json.dumps(obj, sort_keys=True)` with the
default separators `', '` and `': '` and `ensure_ascii=True`.  Key sorting is
split into a recursive normalization pass (`canon`) followed by a plain
serializer, which together serialize every object with its keys in sorted
order, exactly as `sort_keys=True` does. -/

/-- Stable insertion of an object field by key order. -/
def insertFld (x : String × JVal) :
    List (String × JVal) → List (String × JVal)
  | [] => [x]
  | y :: ys => if strLt y.1 x.1 then y :: insertFld x ys else x :: y :: ys

/-- `sorted()` over the keys of an object (stable). -/
def sortFields : List (String × JVal) → List (String × JVal)
  | [] => []
  | x :: xs => insertFld x (sortFields xs)

mutual

/-- Sort the keys of every object in the document. -/
def canon : JVal → JVal
  | .jnull => .jnull
  | .jbool b => .jbool b
  | .jnum n => .jnum n
  | .jstr s => .jstr s
  | .jarr xs => .jarr (canonList xs)
  | .jobj fields => .jobj (sortFields (canonFields fields))
termination_by structural v => v

/-- `canon` mapped over array elements. -/
def canonList : List JVal → List JVal
  | [] => []
  | x :: xs => canon x :: canonList xs
termination_by structural l => l

/-- `canon` mapped over object field values. -/
def canonFields : List (String × JVal) → List (String × JVal)
  | [] => []
  | (k, v) :: rest => (k, canon v) :: canonFields rest
termination_by structural l => l

end

/-- One hexadecimal digit (lowercase). -/
def hexDigit (n : Nat) : Char :=
  if n < 10 then Char.ofNat (48 + n) else Char.ofNat (87 + n)

/-- `\uXXXX` escape for a 16-bit unit. -/
def u4 (n : Nat) : List Char :=
  ['\\', 'u', hexDigit (n / 4096 % 16), hexDigit (n / 256 % 16),
   hexDigit (n / 16 % 16), hexDigit (n % 16)]

/-- Escape one character as Python's `json.dumps` does with
`ensure_ascii=True`: the two-character shortcuts, `\uXXXX` for other control
or non-ASCII characters, surrogate pairs above the BMP. -/
def escapeChar (c : Char) : List Char :=
  if c = '"' then ['\\', '"']
  else if c = '\\' then ['\\', '\\']
  else if c = '\n' then ['\\', 'n']
  else if c = '\r' then ['\\', 'r']
  else if c = '\t' then ['\\', 't']
  else if c.toNat = 8 then ['\\', 'b']
  else if c.toNat = 12 then ['\\', 'f']
  else if c.toNat < 32 ∨ c.toNat ≥ 127 then
    if c.toNat ≥ 65536 then
      u4 (55296 + (c.toNat - 65536) / 1024) ++
        u4 (56320 + (c.toNat - 65536) % 1024)
    else u4 c.toNat
  else [c]

/-- A JSON string literal with its quotes. -/
def jsonString (s : String) : String :=
  "\"" ++ String.mk (s.data.flatMap escapeChar) ++ "\""

mutual

/-- Serialize a key-normalized document with the default separators. -/
def serPlain : JVal → String
  | .jnull => "null"
  | .jbool b => if b then "true" else "false"
  | .jnum n => toString n
  | .jstr s => jsonString s
  | .jarr xs => "[" ++ serList xs ++ "]"
  | .jobj fields => "\x7b" ++ serObj fields ++ "\x7d"
termination_by structural v => v

/-- Array elements joined by `', '`. -/
def serList : List JVal → String
  | [] => ""
  | [x] => serPlain x
  | x :: y :: rest => serPlain x ++ ", " ++ serList (y :: rest)
termination_by structural l => l

/-- Object entries `"key": value` joined by `', '`. -/
def serObj : List (String × JVal) → String
  | [] => ""
  | [(k, v)] => jsonString k ++ ": " ++ serPlain v
  | (k, v) :: f :: rest =>
    jsonString k ++ ": " ++ serPlain v ++ ", " ++ serObj (f :: rest)
termination_by structural l => l

end

/-- `json.dumps(v, sort_keys=True)` with the default separators. -/
def serialize (v : JVal) : String := serPlain (canon v)

/-! SHA-1 over byte lists, words as `Nat` reduced modulo `2^32`. -/

/-- `2^32`. -/
def w32 : Nat := 4294967296

/-- 32-bit left rotation. -/
def rotl32 (n x : Nat) : Nat := ((x <<< n) % w32) ||| (x >>> (32 - n))

/-- `count` bytes of `n`, big-endian. -/
def bytesBE : Nat → Nat → List Nat
  | 0, _ => []
  | k + 1, n => bytesBE k (n / 256) ++ [n % 256]

/-- Merkle–Damgård padding: `0x80`, zeros to 56 mod 64, 8-byte length. -/
def sha1Pad (msg : List Nat) : List Nat :=
  let padZeros := (56 + 64 - ((msg.length + 1) % 64)) % 64
  msg ++ 128 :: List.replicate padZeros 0 ++ bytesBE 8 (8 * msg.length)

/-- Big-endian 32-bit words from bytes. -/
def toWords : List Nat → List Nat
  | b0 :: b1 :: b2 :: b3 :: rest =>
    (((b0 * 256 + b1) * 256 + b2) * 256 + b3) :: toWords rest
  | _ => []

/-- Extend the 16 block words to 80 schedule words (`n` more steps). -/
def sha1Extend : Nat → List Nat → List Nat
  | 0, ws => ws
  | n + 1, ws =>
    let i := ws.length
    let w := rotl32 1 ((ws.getD (i - 3) 0) ^^^ (ws.getD (i - 8) 0) ^^^
      (ws.getD (i - 14) 0) ^^^ (ws.getD (i - 16) 0))
    sha1Extend n (ws ++ [w])

/-- The 80 rounds over the schedule words. -/
def sha1Rounds : Nat → List Nat → Nat × Nat × Nat × Nat × Nat →
    Nat × Nat × Nat × Nat × Nat
  | _, [], st => st
  | i, w :: ws, (a, b, c, d, e) =>
    let f :=
      if i < 20 then (b &&& c) ||| ((b ^^^ 4294967295) &&& d)
      else if i < 40 then b ^^^ c ^^^ d
      else if i < 60 then (b &&& c) ||| (b &&& d) ||| (c &&& d)
      else b ^^^ c ^^^ d
    let k :=
      if i < 20 then 1518500249
      else if i < 40 then 1859775393
      else if i < 60 then 2400959708
      else 3395469782
    let temp := (rotl32 5 a + f + e + k + w) % w32
    sha1Rounds (i + 1) ws (temp, a, rotl32 30 b, c, d)

/-- Process `n` 16-word blocks. -/
def sha1Loop : Nat → List Nat → Nat × Nat × Nat × Nat × Nat →
    Nat × Nat × Nat × Nat × Nat
  | 0, _, hs => hs
  | n + 1, ws, (h0, h1, h2, h3, h4) =>
    let ext := sha1Extend 64 (ws.take 16)
    let (a, b, c, d, e) := sha1Rounds 0 ext (h0, h1, h2, h3, h4)
    sha1Loop n (ws.drop 16)
      ((h0 + a) % w32, (h1 + b) % w32, (h2 + c) % w32, (h3 + d) % w32,
        (h4 + e) % w32)

/-- SHA-1 of a byte list, as the 160-bit digest value. -/
def sha1 (msg : List Nat) : Nat :=
  let ws := toWords (sha1Pad msg)
  let (h0, h1, h2, h3, h4) := sha1Loop (ws.length / 16) ws
    (1732584193, 4023233417, 2562383102, 271733878, 3285377520)
  (((h0 * w32 + h1) * w32 + h2) * w32 + h3) * w32 + h4

/-- `count` lowercase hex digits of `n`, most significant first. -/
def toHex : Nat → Nat → List Char
  | 0, _ => []
  | k + 1, n => toHex k (n / 16) ++ [hexDigit (n % 16)]

/-- `.hexdigest()`: 40 hex characters. -/
def sha1Hexdigest (msg : List Nat) : String := String.mk (toHex 40 (sha1 msg))

/-- `.encode('utf-8')` of the serializer output: the output is pure ASCII
(`ensure_ascii=True`), so each character is one byte. -/
def strBytes (s : String) : List Nat := s.data.map Char.toNat

/-- The container inspect hash computed by `_sync_containers`. -/
def inspect_hash (inspect : JVal) : String :=
  sha1Hexdigest (strBytes (serialize (sort_docker_inspect inspect)))

/-- SHA-1 sanity check against the standard test vectors. -/
theorem sha1_test_vectors :
    sha1Hexdigest (strBytes "abc") =
      "a9993e364706816aba3e25717850c26c9cd0d89d" ∧
    sha1Hexdigest [] = "da39a3ee5e6b4b0d3255bfef95601890afd80709" := by
  exact ⟨by decide, by decide⟩

/-! ## Theorems for C9 -/

theorem str_ext {a b : String} (h : a.data = b.data) : a = b :=
  congrArg String.mk h

theorem char_toNat_inj {c d : Char} (h : c.toNat = d.toNat) : c = d := by
  have h2 := congrArg Char.ofNat h
  rwa [Char.ofNat_toNat, Char.ofNat_toNat] at h2

theorem charsLt_irrefl (l : List Char) : charsLt l l = false := by
  induction l with
  | nil => rfl
  | cons c cs ih =>
    have h1 : Nat.blt c.toNat c.toNat = false := by
      rw [← Bool.not_eq_true, Nat.blt_eq]
      omega
    simp [charsLt, ih, h1]

theorem charsLt_trans {a b c : List Char} (h1 : charsLt a b = true)
    (h2 : charsLt b c = true) : charsLt a c = true := by
  induction a generalizing b c with
  | nil =>
    cases b with
    | nil => exact absurd h1 (by simp [charsLt])
    | cons d ds =>
      cases c with
      | nil => exact absurd h2 (by simp [charsLt])
      | cons e es => simp [charsLt]
  | cons x xs ih =>
    cases b with
    | nil => exact absurd h1 (by simp [charsLt])
    | cons d ds =>
      cases c with
      | nil => exact absurd h2 (by simp [charsLt])
      | cons e es =>
        simp only [charsLt, Bool.or_eq_true, Bool.and_eq_true, Nat.blt_eq,
          Nat.beq_eq] at h1 h2 ⊢
        rcases h1 with h1 | ⟨h1e, h1r⟩ <;> rcases h2 with h2 | ⟨h2e, h2r⟩
        · exact Or.inl (h1.trans h2)
        · exact Or.inl (by omega)
        · exact Or.inl (by omega)
        · exact Or.inr ⟨by omega, ih h1r h2r⟩

theorem charsLt_total (a b : List Char) :
    a = b ∨ charsLt a b = true ∨ charsLt b a = true := by
  induction a generalizing b with
  | nil =>
    cases b with
    | nil => exact Or.inl rfl
    | cons d ds => exact Or.inr (Or.inl (by simp [charsLt]))
  | cons x xs ih =>
    cases b with
    | nil => exact Or.inr (Or.inr (by simp [charsLt]))
    | cons d ds =>
      rcases Nat.lt_trichotomy x.toNat d.toNat with h | h | h
      · refine Or.inr (Or.inl ?_)
        simp [charsLt, Nat.blt_eq, h]
      · have hxd : x = d := char_toNat_inj h
        subst hxd
        rcases ih ds with he | hlt | hlt
        · exact Or.inl (by rw [he])
        · refine Or.inr (Or.inl ?_)
          simp [charsLt, Nat.beq_eq, hlt]
        · refine Or.inr (Or.inr ?_)
          simp [charsLt, Nat.beq_eq, hlt]
      · refine Or.inr (Or.inr ?_)
        simp [charsLt, Nat.blt_eq, h]

theorem pairLt_irrefl (a : String × String) : ¬ pairLt a a := by
  rintro (h | ⟨_, h⟩) <;>
    simp [strLt, charsLt_irrefl] at h

theorem pairLt_trans {a b c : String × String} (h1 : pairLt a b)
    (h2 : pairLt b c) : pairLt a c := by
  rcases h1 with h1 | ⟨h1e, h1r⟩ <;> rcases h2 with h2 | ⟨h2e, h2r⟩
  · exact Or.inl (charsLt_trans h1 h2)
  · exact Or.inl (by rwa [← h2e])
  · exact Or.inl (by rwa [h1e])
  · exact Or.inr ⟨h1e.trans h2e, charsLt_trans h1r h2r⟩

theorem pairLt_asymm {a b : String × String} (h : pairLt a b) :
    ¬ pairLt b a :=
  fun h' => pairLt_irrefl a (pairLt_trans h h')

theorem pairLt_total_of_ne {a b : String × String} (h : a ≠ b) :
    pairLt a b ∨ pairLt b a := by
  rcases charsLt_total a.1.data b.1.data with he | hlt | hlt
  · have he1 : a.1 = b.1 := str_ext he
    rcases charsLt_total a.2.data b.2.data with he2 | hlt2 | hlt2
    · exact absurd (Prod.ext he1 (str_ext he2)) h
    · exact Or.inl (Or.inr ⟨he1, hlt2⟩)
    · exact Or.inr (Or.inr ⟨he1.symm, hlt2⟩)
  · exact Or.inl (Or.inl hlt)
  · exact Or.inr (Or.inl hlt)

theorem not_pairLt_trans {a b c : String × String} (hba : ¬ pairLt b a)
    (hcb : ¬ pairLt c b) : ¬ pairLt c a := by
  intro hca
  by_cases hab : a = b
  · subst hab
    exact hcb hca
  · by_cases hbc : b = c
    · subst hbc
      exact hba hca
    · rcases pairLt_total_of_ne hab with hlt | hlt
      · rcases pairLt_total_of_ne hbc with hlt2 | hlt2
        · exact pairLt_asymm (pairLt_trans hlt hlt2) hca
        · exact hcb hlt2
      · exact hba hlt

theorem insertMount_perm (x : JVal) (l : List JVal) :
    List.Perm (insertMount x l) (x :: l) := by
  induction l with
  | nil => rfl
  | cons y ys ih =>
    by_cases h : pairLt (mountKey y) (mountKey x)
    · simp only [insertMount, h, if_true]
      exact (ih.cons y).trans (List.Perm.swap x y ys)
    · simp [insertMount, h]

theorem sortMounts_perm (l : List JVal) : List.Perm (sortMounts l) l := by
  induction l with
  | nil => rfl
  | cons x xs ih => exact (insertMount_perm x (sortMounts xs)).trans (ih.cons x)

theorem insertMount_pairwise (x : JVal) (l : List JVal)
    (hl : l.Pairwise (fun a b => ¬ pairLt (mountKey b) (mountKey a))) :
    (insertMount x l).Pairwise
      (fun a b => ¬ pairLt (mountKey b) (mountKey a)) := by
  induction l with
  | nil => simp [insertMount]
  | cons y ys ih =>
    rcases List.pairwise_cons.mp hl with ⟨hy, hys⟩
    by_cases h : pairLt (mountKey y) (mountKey x)
    · simp only [insertMount, h, if_true]
      refine List.pairwise_cons.mpr ⟨?_, ih hys⟩
      intro z hz
      rcases List.mem_cons.mp ((insertMount_perm x ys).mem_iff.mp hz) with
        hzx | hzys
      · subst hzx
        exact pairLt_asymm h
      · exact hy z hzys
    · simp only [insertMount, h, if_false]
      refine List.pairwise_cons.mpr ⟨?_, hl⟩
      intro z hz
      rcases List.mem_cons.mp hz with hzy | hzys
      · subst hzy
        exact h
      · exact not_pairLt_trans h (hy z hzys)

theorem sortMounts_pairwise (l : List JVal) :
    (sortMounts l).Pairwise
      (fun a b => ¬ pairLt (mountKey b) (mountKey a)) := by
  induction l with
  | nil => simp [sortMounts]
  | cons x xs ih => exact insertMount_pairwise x (sortMounts xs) ih

theorem eq_of_perm_of_pairwise_strict (l₁ l₂ : List JVal)
    (h : List.Perm l₁ l₂)
    (h₁ : l₁.Pairwise (fun a b => pairLt (mountKey a) (mountKey b)))
    (h₂ : l₂.Pairwise (fun a b => pairLt (mountKey a) (mountKey b))) :
    l₁ = l₂ := by
  induction l₁ generalizing l₂ with
  | nil => exact (List.Perm.eq_nil h.symm).symm
  | cons x xs ih =>
    cases l₂ with
    | nil => exact absurd (List.Perm.eq_nil h) (by simp)
    | cons y ys =>
      have hxy : x = y := by
        by_contra hne
        have hx2 : x ∈ y :: ys := h.mem_iff.mp (List.mem_cons_self _ _)
        have hxys : x ∈ ys := by
          rcases List.mem_cons.mp hx2 with he | hm
          · exact absurd he hne
          · exact hm
        have hyx : y ∈ x :: xs := h.symm.mem_iff.mp (List.mem_cons_self _ _)
        have hyxs : y ∈ xs := by
          rcases List.mem_cons.mp hyx with he | hm
          · exact absurd he.symm hne
          · exact hm
        have hlt1 : pairLt (mountKey x) (mountKey y) :=
          (List.pairwise_cons.mp h₁).1 y hyxs
        have hlt2 : pairLt (mountKey y) (mountKey x) :=
          (List.pairwise_cons.mp h₂).1 x hxys
        exact pairLt_asymm hlt1 hlt2
      subst hxy
      have htail := ih ys h.cons_inv (List.pairwise_cons.mp h₁).2
        (List.pairwise_cons.mp h₂).2
      rw [htail]

theorem sortMounts_eq_of_perm (m₁ m₂ : List JVal)
    (hperm : List.Perm m₁ m₂)
    (hkeys : m₁.Pairwise (fun a b => mountKey a ≠ mountKey b)) :
    sortMounts m₁ = sortMounts m₂ := by
  have hkeys₂ : m₂.Pairwise (fun a b => mountKey a ≠ mountKey b) :=
    (hperm.pairwise_iff fun h => Ne.symm h).mp hkeys
  have hk₁ : (sortMounts m₁).Pairwise
      (fun a b => mountKey a ≠ mountKey b) :=
    ((sortMounts_perm m₁).pairwise_iff fun h => Ne.symm h).mpr hkeys
  have hk₂ : (sortMounts m₂).Pairwise
      (fun a b => mountKey a ≠ mountKey b) :=
    ((sortMounts_perm m₂).pairwise_iff fun h => Ne.symm h).mpr hkeys₂
  have hstrict : ∀ l : List JVal,
      l.Pairwise (fun a b => ¬ pairLt (mountKey b) (mountKey a)) →
      l.Pairwise (fun a b => mountKey a ≠ mountKey b) →
      l.Pairwise (fun a b => pairLt (mountKey a) (mountKey b)) := by
    intro l hle hne
    induction l with
    | nil => exact List.Pairwise.nil
    | cons x xs ih =>
      rcases List.pairwise_cons.mp hle with ⟨hle1, hle2⟩
      rcases List.pairwise_cons.mp hne with ⟨hne1, hne2⟩
      refine List.pairwise_cons.mpr ⟨?_, ih hle2 hne2⟩
      intro z hz
      rcases pairLt_total_of_ne (hne1 z hz) with hlt | hlt
      · exact hlt
      · exact absurd hlt (hle1 z hz)
  exact eq_of_perm_of_pairwise_strict _ _
    (((sortMounts_perm m₁).trans hperm).trans (sortMounts_perm m₂).symm)
    (hstrict _ (sortMounts_pairwise m₁) hk₁)
    (hstrict _ (sortMounts_pairwise m₂) hk₂)

theorem dictInsert_dictInsert {κ α : Type} [DecidableEq κ]
    (l : List (κ × α)) (k : κ) (v v' : α) :
    dictInsert (dictInsert l k v) k v' = dictInsert l k v' := by
  induction l with
  | nil => simp [dictInsert]
  | cons kv rest ih =>
    by_cases h : kv.1 = k
    · simp [dictInsert, h]
    · simp [dictInsert, h, ih]

/-- C9 (amended): the inspect hash is invariant under permutations of the
`Mounts` list PROVIDED no two mounts share the same `(Source, Destination)`
sort key; the stable sort then yields a canonical order, so the serialized
document and its SHA-1 digest agree. -/
theorem inspect_hash_mounts_perm (fields : List (String × JVal))
    (m₁ m₂ : List JVal) (hperm : List.Perm m₁ m₂)
    (hkeys : m₁.Pairwise (fun a b => mountKey a ≠ mountKey b)) :
    inspect_hash (JVal.jobj (dictInsert fields "Mounts" (JVal.jarr m₁))) =
      inspect_hash (JVal.jobj (dictInsert fields "Mounts" (JVal.jarr m₂))) := by
  have hsort := sortMounts_eq_of_perm m₁ m₂ hperm hkeys
  cases m₁ with
  | nil =>
    have h2 : m₂ = [] := List.Perm.eq_nil hperm.symm
    subst h2
    rfl
  | cons m ms =>
    cases m₂ with
    | nil => exact absurd (List.Perm.eq_nil hperm) (by simp)
    | cons m' ms' =>
      simp only [inspect_hash, sort_docker_inspect, dictGet_dictInsert_self]
      rw [dictInsert_dictInsert, dictInsert_dictInsert, hsort]

/-- A mount on `/a → /x`, for the C9 witness. -/
def c9mountA : JVal :=
  JVal.jobj [("Source", JVal.jstr "/a"), ("Destination", JVal.jstr "/x")]

/-- A mount on `/b → /y`, for the C9 witness. -/
def c9mountB : JVal :=
  JVal.jobj [("Source", JVal.jstr "/b"), ("Destination", JVal.jstr "/y")]

/-- Witness for C9 (amended): two mounts with distinct `(Source,
Destination)` keys hash identically in either order. -/
theorem inspect_hash_mounts_perm_witness :
    inspect_hash (JVal.jobj
      (dictInsert [("Id", JVal.jstr "c1")] "Mounts"
        (JVal.jarr [c9mountA, c9mountB]))) =
    inspect_hash (JVal.jobj
      (dictInsert [("Id", JVal.jstr "c1")] "Mounts"
        (JVal.jarr [c9mountB, c9mountA]))) :=
  inspect_hash_mounts_perm [("Id", JVal.jstr "c1")]
    [c9mountA, c9mountB] [c9mountB, c9mountA]
    (List.Perm.swap c9mountB c9mountA [])
    (by
      refine List.pairwise_cons.mpr ⟨?_, List.pairwise_singleton _ _⟩
      intro z hz
      rcases List.mem_singleton.mp hz with h
      subst h
      intro hG
      rw [show mountKey c9mountA = ("/a", "/x") from rfl,
        show mountKey c9mountB = ("/b", "/y") from rfl] at hG
      simp at hG)

/-- A mount entry without `Source`/`Destination` keys, read-only mode. -/
def c9modeRO : JVal := JVal.jobj [("Mode", JVal.jstr "ro")]

/-- A mount entry without `Source`/`Destination` keys, read-write mode. -/
def c9modeRW : JVal := JVal.jobj [("Mode", JVal.jstr "rw")]

/-- Serializer and full-pipeline sanity check: the canonical serialization
and the inspect hash of a small document match the values
`json.dumps(..., sort_keys=True)` and `hashlib.sha1(...).hexdigest()`
produce. -/
theorem inspect_hash_pipeline_check :
    serialize (JVal.jobj [("Mounts", JVal.jarr
      [JVal.jobj [("Mode", JVal.jstr "ro")],
       JVal.jobj [("Mode", JVal.jstr "rw")]])]) =
      "\x7b\"Mounts\": [\x7b\"Mode\": \"ro\"\x7d, \x7b\"Mode\": \"rw\"\x7d]\x7d" ∧
    inspect_hash (JVal.jobj [("Mounts", JVal.jarr
      [JVal.jobj [("Mode", JVal.jstr "ro")],
       JVal.jobj [("Mode", JVal.jstr "rw")]])]) =
      "dbdd3a84228f3f9339721d2934bda2462387e61d" := by
  exact ⟨by decide, by decide⟩

/-- C9 counterexample: two distinct mounts that share the same `(Source,
Destination)` sort key (both missing, hence `("", "")`) keep their relative
order under the stable sort, so permuting them changes the canonical
serialization and the SHA-1 digest: the hash is NOT invariant under
permutation of the `Mounts` list for every inspect document. -/
theorem inspect_hash_mounts_perm_counterexample :
    List.Perm [c9modeRO, c9modeRW] [c9modeRW, c9modeRO] ∧
    inspect_hash (JVal.jobj [("Mounts", JVal.jarr [c9modeRO, c9modeRW])]) ≠
      inspect_hash (JVal.jobj [("Mounts", JVal.jarr [c9modeRW, c9modeRO])]) :=
  ⟨List.Perm.swap c9modeRW c9modeRO [], by decide⟩

/-! ## C10: `_api_datetime_to_time`

The function parses a textual date with `datetime.strptime` against the two
formats `'%Y-%m-%dT%H:%M:%S.%fZ'` and `'%Y-%m-%dT%H:%M:%SZ'`, swallowing
`ValueError`, and returns the UTC epoch timestamp (an exact rational here;
the source returns the corresponding float).  The parser mirrors CPython's
`_strptime` regular expressions: `%Y` is exactly four digits; `%m`, `%d`,
`%H`, `%M` and `%S` accept one or two digits with the per-directive value
patterns; `%f` is one to six digits right-padded to microseconds.
`_strptime` compiles the format regex with `re.IGNORECASE`, so the letter
literals `T` and `Z` also match their lowercase forms `t` and `z` (and under
Unicode lowercasing nothing else maps to `t` or `z`, so ASCII folding is
exact for these formats).  In these
two formats every variable-width field is followed by a non-digit literal,
so the regex backtracking collapses to: take two digits when they form a
valid two-digit pattern, else one.  `datetime`'s own range validation
(`MINYEAR`, days per month, seconds below 60 — the `%S` pattern admits the
leap seconds 60 and 61, which `datetime` then rejects) is applied after
matching, and a failure falls through to the next format. -/

end Bleemeo
